import Mathlib

/-!
Verification of the process-orchestration core of `gotestsum` (`src/main.go`)
against its natural-language specification.

The Go source is shallowly embedded: pure functions (`goTestCmdArgs`,
`hasJSONArg`, `pathFromEnv`, the summary computation inside `summarizer`)
become Lean functions; the effectful functions (`startGoTest`, `run`, the
exit translation in `main`) become pure functions over an explicit `World`
of operation outcomes, recording the trace of attempted operations and
whether the cancellation handle was invoked.  The environment variable
`TEST_DIRECTORY` is modelled as an `Option String` parameter.
-/

set_option maxHeartbeats 1000000

/-- The `options` struct of `main.go` (flag wiring fields included verbatim). -/
structure Options where
  args : List String
  format : String
  debug : Bool
  rawCommand : Bool
  jsonFile : String
  junitFile : String
  noColor : Bool
  noSummary : List String
deriving DecidableEq, Repr

/-- `lookEnvWithDefault` from `main.go`: the environment lookup is modelled by
an `Option String` (`some v` when the variable is set to `v`, `none` when it
is unset). -/
def lookEnvWithDefault (env : Option String) (defValue : String) : String :=
  match env with
  | some value => value
  | none => defValue

/-- `pathFromEnv` from `main.go`: looks up `TEST_DIRECTORY` with a default. -/
def pathFromEnv (testDirectory : Option String) (defaultPath : String) : String :=
  lookEnvWithDefault testDirectory defaultPath

/-- `hasJSONArg` from `main.go`: whether some argument is `-json` or `--json`. -/
def hasJSONArg (args : List String) : Bool :=
  args.any (fun arg => arg == "-json" || arg == "--json")

/-- `goTestCmdArgs` from `main.go`, parametrised by the `TEST_DIRECTORY`
environment variable.  Mirrors the Go `switch` and the two `append`s. -/
def goTestCmdArgs (testDirectory : Option String) (opts : Options) : List String :=
  let args := opts.args
  let defaultArgs := ["go", "test"]
  if opts.rawCommand then
    args
  else if args.length = 0 then
    defaultArgs ++ ["-json", pathFromEnv testDirectory "./..."]
  else
    let defaultArgs :=
      if ¬ hasJSONArg args then defaultArgs ++ ["-json"] else defaultArgs
    let testPath := pathFromEnv testDirectory ""
    let args := if testPath ≠ "" then args ++ [testPath] else args
    defaultArgs ++ args

/-- The suffix appended by `goTestCmdArgs` when `TEST_DIRECTORY` resolves to a
non-empty path (the `if testPath != ""` block of the source). -/
def envPathSuffix (testDirectory : Option String) : List String :=
  if pathFromEnv testDirectory "" ≠ "" then [pathFromEnv testDirectory ""] else []

/-- Modelled from the spec: the `testjson.Summary` flag constants are defined
in the `testjson` package, which is not under `src/`.  Per the spec the
summary sections form "an additive/subtractive flag set" over the fixed
enumeration containing Skipped, Failed and Errors, so each is a distinct
single bit of a flag integer.  `SummarizeSkipped` is the lowest bit. -/
def SummarizeSkipped : Int := 1

/-- Modelled from the spec: the Failed section's flag bit (see
`SummarizeSkipped`). -/
def SummarizeFailed : Int := 2

/-- Modelled from the spec: the Errors section's flag bit (see
`SummarizeSkipped`). -/
def SummarizeErrors : Int := 4

/-- Modelled from the spec: "all sections enabled", the union of the three
section bits (the bits are distinct, so their bitwise union equals their sum). -/
def SummarizeAll : Int := SummarizeSkipped + SummarizeFailed + SummarizeErrors

/-- Bit `k` of the flag integer `s`, in two's-complement semantics (the
semantics of Go's bitwise operations on a negative `int`): floor-divide by
`2 ^ k` and take the nonnegative remainder modulo 2. -/
def flagBit (s : Int) (k : Nat) : Bool :=
  (s.ediv (2 ^ k)).emod 2 = 1

/-- One iteration of the `for _, item := range opts.noSummary` loop in
`summarizer` (`main.go`): Go's `summary -= testjson.SummarizeX` is arithmetic
subtraction on the flag integer, with a `default`-free `switch` ignoring any
other name. -/
def summaryStep (summary : Int) (item : String) : Int :=
  if item = "failed" then summary - SummarizeFailed
  else if item = "skipped" then summary - SummarizeSkipped
  else if item = "errors" then summary - SummarizeErrors
  else summary

/-- The summary value computed by `summarizer` (`main.go`) and captured by the
closure it returns: start from `testjson.SummarizeAll` and run the loop over
`opts.noSummary`. -/
def summarizer (opts : Options) : Int :=
  opts.noSummary.foldl summaryStep SummarizeAll

/-- Whether a section (given by its flag value, a power of two) is a member of
the effective flag set: its bit is set in the flag integer, in
two's-complement semantics. -/
def sectionEnabled (summary flag : Int) : Bool :=
  (summary.ediv flag).emod 2 = 1

/-- An `Options` value whose only configuration is the suppress list,
used to evaluate `summarizer` on concrete inputs. -/
def optsSuppressing (noSummary : List String) : Options :=
  ⟨[], "short", false, false, "", "", false, noSummary⟩

/-- The observable operations `startGoTest` performs, in the order it attempts
them. -/
inductive Event where
  | openStdoutPipe
  | openStderrPipe
  | startProcess
deriving DecidableEq, Repr

/-- The outcomes the operating system and the external collaborators hand to
one execution of `run`: each effectful call of `main.go` either succeeds or
fails with an error message.  `scan` stands for `testjson.ScanTestOutput`,
`newHandler` for `newEventHandler`, `printSummary` for `testjson.PrintSummary`
invoked through the closure `summarizer` returns, `writeJUnit` for
`writeJUnitFile`, and `wait` for `cmd.Wait` (whose error is the child's
non-zero exit).  The collaborators outside `src/` are opaque fallible calls,
exactly how `run` treats them. -/
structure World where
  stdoutPipe : Except String Unit
  stderrPipe : Except String Unit
  start : Except String Unit
  newHandler : Except String Unit
  scan : Except String Unit
  printSummary : Except String Unit
  writeJUnit : Except String Unit
  wait : Except String Unit
deriving Repr

/-- The `proc` value built by `startGoTest`, together with the error it
returns and the trace of operations it attempted.  `cmdName` is the Go
expression `args[0]`: `none` models the index-out-of-range panic when `args`
is empty. -/
structure StartResult where
  cmdName : Option String
  cmdArgs : List String
  err : Option String
  events : List Event
deriving DecidableEq, Repr

/-- `startGoTest` from `main.go`: build the command from `args[0]` and
`args[1:]`, open the stdout pipe, on failure return at once; open the stderr
pipe, on failure return at once; only then start the process. -/
def startGoTest (w : World) (args : List String) : StartResult :=
  let cmdName := args[0]?
  let cmdArgs := args.drop 1
  match w.stdoutPipe with
  | .error e => ⟨cmdName, cmdArgs, some e, [.openStdoutPipe]⟩
  | .ok _ =>
    match w.stderrPipe with
    | .error e => ⟨cmdName, cmdArgs, some e, [.openStdoutPipe, .openStderrPipe]⟩
    | .ok _ =>
      match w.start with
      | .error e =>
          ⟨cmdName, cmdArgs, some e, [.openStdoutPipe, .openStderrPipe, .startProcess]⟩
      | .ok _ =>
          ⟨cmdName, cmdArgs, none, [.openStdoutPipe, .openStderrPipe, .startProcess]⟩

/-- `run` from `main.go`, returning the error (`none` for success) paired
with whether `goTestProc.cancel` was invoked before returning.  The source
registers `defer goTestProc.cancel()` only after the `startGoTest` error
check, so the early `return` on a start error happens with no deferred cancel
in place; every later return path runs the deferred cancel. -/
def run (w : World) (testDirectory : Option String) (opts : Options) :
    Option String × Bool :=
  let p := startGoTest w (goTestCmdArgs testDirectory opts)
  match p.err with
  | some e => (some ("failed to run: " ++ e), false)
  | none =>
    match w.newHandler with
    | .error e => (some e, true)
    | .ok _ =>
      match w.scan with
      | .error e => (some e, true)
      | .ok _ =>
        match w.printSummary with
        | .error e => (some e, true)
        | .ok _ =>
          match w.writeJUnit with
          | .error e => (some e, true)
          | .ok _ =>
            match w.wait with
            | .error e => (some e, true)
            | .ok _ => (none, true)

/-- The three shapes of `run`'s result that `main`'s type switch
distinguishes: `nil`, `*exec.ExitError` (carrying the child's exit code when
the platform makes it determinable), and any other error. -/
inductive RunOutcome where
  | ok
  | exitError (code : Option Nat)
  | otherError (msg : String)
deriving DecidableEq, Repr

/-- Modelled from the spec: `ExitCodeWithDefault` lives in a package of this
repository that is not under `src/`; per the spec it propagates the child's
exact exit code and falls back to a fixed default code when the exit code
cannot be determined from the error.  The spec does not name the fallback
value; it is left here as an arbitrary fixed constant. -/
def defaultExitCode : Nat := 1

/-- Modelled from the spec: `ExitCodeWithDefault` (see `defaultExitCode`). -/
def ExitCodeWithDefault (code : Option Nat) : Nat :=
  match code with
  | some c => c
  | none => defaultExitCode

/-- What `main` produces after `run` returns: the process exit status and the
lines it printed to standard error. -/
structure MainResult where
  exitCode : Nat
  stderrLines : List String
deriving DecidableEq, Repr

/-- The type switch at the end of `main` (`main.go`): `nil` falls through
(exit status 0, nothing printed); `*exec.ExitError` exits with
`ExitCodeWithDefault` and prints nothing; any other error prints one
prefixed line and exits with status 3. -/
def mainExit (name : String) (outcome : RunOutcome) : MainResult :=
  match outcome with
  | .ok => ⟨0, []⟩
  | .exitError code => ⟨ExitCodeWithDefault code, []⟩
  | .otherError msg => ⟨3, [name ++ ": Error: " ++ msg]⟩

/-- A `World` in which every operation succeeds. -/
def allOkWorld : World :=
  ⟨.ok (), .ok (), .ok (), .ok (), .ok (), .ok (), .ok (), .ok ()⟩

/-- `hasJSONArg` distributes over list append. -/
lemma hasJSONArg_append (xs ys : List String) :
    hasJSONArg (xs ++ ys) = (hasJSONArg xs || hasJSONArg ys) := by
  simp [hasJSONArg]

/-- The command name `startGoTest` uses is the first composed argument
(the Go expression `args[0]`). -/
lemma startGoTest_cmdName (w : World) (args : List String) :
    (startGoTest w args).cmdName = args[0]? := by
  rcases w with ⟨so, se, st, nh, sc, ps, wj, wa⟩
  cases so <;> cases se <;> cases st <;> rfl

/-- Claim C6: with raw-command unset and no positional arguments,
`goTestCmdArgs` returns exactly `["go", "test", "-json", p]`, where `p` is the
`TEST_DIRECTORY` value when that variable is set and `"./..."` otherwise. -/
theorem goTestCmdArgs_noArgs (td : Option String) (opts : Options)
    (hraw : opts.rawCommand = false) (hargs : opts.args = []) :
    goTestCmdArgs td opts = ["go", "test", "-json", td.getD "./..."] := by
  cases td <;>
    simp [goTestCmdArgs, hraw, hargs, pathFromEnv, lookEnvWithDefault]

/-- Witness for `goTestCmdArgs_noArgs` at a set and an unset environment. -/
theorem goTestCmdArgs_noArgs_witness :
    (optsSuppressing []).rawCommand = false ∧ (optsSuppressing []).args = [] ∧
    goTestCmdArgs (some "./pkg") (optsSuppressing []) = ["go", "test", "-json", "./pkg"] ∧
    goTestCmdArgs none (optsSuppressing []) = ["go", "test", "-json", "./..."] :=
  ⟨rfl, rfl, goTestCmdArgs_noArgs (some "./pkg") (optsSuppressing []) rfl rfl,
    goTestCmdArgs_noArgs none (optsSuppressing []) rfl rfl⟩

/-- Claim C7: with raw-command set, `goTestCmdArgs` returns the positional
arguments verbatim, for every value of the `TEST_DIRECTORY` override. -/
theorem goTestCmdArgs_rawCommand (td : Option String) (opts : Options)
    (hraw : opts.rawCommand = true) :
    goTestCmdArgs td opts = opts.args := by
  simp [goTestCmdArgs, hraw]

/-- Witness for `goTestCmdArgs_rawCommand`. -/
theorem goTestCmdArgs_rawCommand_witness :
    (⟨["custom", "-v"], "short", false, true, "", "", false, []⟩ : Options).rawCommand = true ∧
    goTestCmdArgs (some "./ignored")
        ⟨["custom", "-v"], "short", false, true, "", "", false, []⟩ = ["custom", "-v"] :=
  ⟨rfl, goTestCmdArgs_rawCommand (some "./ignored")
    ⟨["custom", "-v"], "short", false, true, "", "", false, []⟩ rfl⟩

/-- Claim C10: with raw-command set and no positional arguments,
`goTestCmdArgs` returns the empty vector, so the `args[0]` access performed by
`startGoTest` has no value (in Go, an index-out-of-range panic): `run` is not
total on this input. -/
theorem goTestCmdArgs_raw_empty_outOfBounds (td : Option String) (w : World)
    (opts : Options) (hraw : opts.rawCommand = true) (hargs : opts.args = []) :
    goTestCmdArgs td opts = [] ∧
    (startGoTest w (goTestCmdArgs td opts)).cmdName = none := by
  have h : goTestCmdArgs td opts = [] := by
    simp [goTestCmdArgs, hraw, hargs]
  refine ⟨h, ?_⟩
  rw [startGoTest_cmdName, h]
  rfl

/-- The `options` value for raw-command mode with no positional arguments. -/
def rawEmptyOpts : Options := ⟨[], "short", false, true, "", "", false, []⟩

/-- Witness for `goTestCmdArgs_raw_empty_outOfBounds`. -/
theorem goTestCmdArgs_raw_empty_outOfBounds_witness :
    rawEmptyOpts.rawCommand = true ∧ rawEmptyOpts.args = [] ∧
    (goTestCmdArgs none rawEmptyOpts = [] ∧
      (startGoTest allOkWorld (goTestCmdArgs none rawEmptyOpts)).cmdName = none) :=
  ⟨rfl, rfl, goTestCmdArgs_raw_empty_outOfBounds none allOkWorld rawEmptyOpts rfl rfl⟩

/-- Claim C5: the exit translation of `main` maps a `nil` result of `run` to
exit status 0 with nothing printed; a child non-zero-exit error to the child's
own exit code with nothing printed; and any other error to exit status 3 with
exactly one prefixed line on standard error. -/
theorem mainExit_translation (name : String) (outcome : RunOutcome) :
    (outcome = RunOutcome.ok → mainExit name outcome = ⟨0, []⟩) ∧
    (∀ c : Nat, outcome = RunOutcome.exitError (some c) →
      mainExit name outcome = ⟨c, []⟩) ∧
    (∀ msg : String, outcome = RunOutcome.otherError msg →
      mainExit name outcome = ⟨3, [name ++ ": Error: " ++ msg]⟩) := by
  refine ⟨fun h => ?_, fun c h => ?_, fun msg h => ?_⟩ <;> subst h <;> rfl

/-- Witness for `mainExit_translation` on all three outcome shapes. -/
theorem mainExit_translation_witness :
    mainExit "gotestsum" RunOutcome.ok = ⟨0, []⟩ ∧
    mainExit "gotestsum" (RunOutcome.exitError (some 2)) = ⟨2, []⟩ ∧
    mainExit "gotestsum" (RunOutcome.otherError "boom") =
      ⟨3, ["gotestsum" ++ ": Error: " ++ "boom"]⟩ :=
  ⟨(mainExit_translation "gotestsum" RunOutcome.ok).1 rfl,
    (mainExit_translation "gotestsum" (RunOutcome.exitError (some 2))).2.1 2 rfl,
    (mainExit_translation "gotestsum" (RunOutcome.otherError "boom")).2.2 "boom" rfl⟩

/-- Claim C8: `startGoTest` attempts both pipe openings before starting the
process (on the no-pipe-failure path the trace is stdout pipe, then stderr
pipe, then process start), and a failure opening either pipe is returned
immediately with the process never started. -/
theorem startGoTest_pipes_before_start (w : World) (args : List String) :
    (∀ e, w.stdoutPipe = .error e →
      (startGoTest w args).err = some e ∧
      Event.startProcess ∉ (startGoTest w args).events) ∧
    (∀ e, w.stdoutPipe = .ok () → w.stderrPipe = .error e →
      (startGoTest w args).err = some e ∧
      Event.startProcess ∉ (startGoTest w args).events) ∧
    (w.stdoutPipe = .ok () → w.stderrPipe = .ok () →
      (startGoTest w args).events =
        [Event.openStdoutPipe, Event.openStderrPipe, Event.startProcess]) := by
  rcases w with ⟨so, se, st, nh, sc, ps, wj, wa⟩
  refine ⟨fun e he => ?_, fun e hso he => ?_, fun hso hse => ?_⟩
  · subst he; cases se <;> cases st <;> exact ⟨rfl, by simp [startGoTest]⟩
  · subst hso; subst he; cases st <;> exact ⟨rfl, by simp [startGoTest]⟩
  · subst hso; subst hse; cases st <;> rfl

/-- A `World` whose stdout-pipe opening fails. -/
def stdoutPipeFailWorld : World := { allOkWorld with stdoutPipe := .error "pipe failed" }

/-- Witness for `startGoTest_pipes_before_start`: a failing stdout pipe is
returned with no process start, and the all-success trace opens both pipes
before starting. -/
theorem startGoTest_pipes_before_start_witness :
    ((startGoTest stdoutPipeFailWorld ["go", "test"]).err = some "pipe failed" ∧
      Event.startProcess ∉ (startGoTest stdoutPipeFailWorld ["go", "test"]).events) ∧
    (startGoTest allOkWorld ["go", "test"]).events =
      [Event.openStdoutPipe, Event.openStderrPipe, Event.startProcess] :=
  ⟨(startGoTest_pipes_before_start stdoutPipeFailWorld ["go", "test"]).1 "pipe failed" rfl,
    (startGoTest_pipes_before_start allOkWorld ["go", "test"]).2.2 rfl rfl⟩

/-- An `options` value whose only positional argument is `-json`, with
raw-command unset and every other field at its zero value. -/
def jsonOpts : Options := ⟨["-json"], "short", false, false, "", "", false, []⟩

/-- Claim C1 is false on the code: for raw-command unset and positional
arguments `["-json"]` (which contain the structured-output flag), with
`TEST_DIRECTORY` unset, `goTestCmdArgs` returns `["go", "test", "-json"]`,
not the positional arguments; and applying it again over that output changes
it again (a second base command is prepended), so double application differs
from single application. -/
theorem goTestCmdArgs_jsonArgs_counterexample :
    jsonOpts.rawCommand = false ∧ hasJSONArg jsonOpts.args = true ∧
    goTestCmdArgs none jsonOpts = ["go", "test", "-json"] ∧
    goTestCmdArgs none jsonOpts ≠ jsonOpts.args ∧
    goTestCmdArgs none
        ⟨goTestCmdArgs none jsonOpts, "short", false, false, "", "", false, []⟩ ≠
      goTestCmdArgs none jsonOpts := by
  decide

/-- Claim C1 as amended: with raw-command unset and non-empty positional
arguments already containing `-json`/`--json`, `goTestCmdArgs` injects no
structured-output flag but still prepends the base command: the result is
`["go", "test"]` followed by the positional arguments unchanged, with the
`TEST_DIRECTORY` path appended when set and non-empty; the result again
contains a structured-output flag (so a repeated application also injects
none), but the repeated base-command prepending makes double application
differ from single application. -/
theorem goTestCmdArgs_jsonArgs_amended (td : Option String) (opts : Options)
    (hraw : opts.rawCommand = false) (hne : opts.args ≠ [])
    (hjson : hasJSONArg opts.args = true) :
    goTestCmdArgs td opts = ["go", "test"] ++ opts.args ++ envPathSuffix td ∧
    hasJSONArg (goTestCmdArgs td opts) = true := by
  have hlen : ¬ opts.args.length = 0 := by simpa using hne
  have hmain : goTestCmdArgs td opts = ["go", "test"] ++ opts.args ++ envPathSuffix td := by
    by_cases hp : pathFromEnv td "" ≠ ""
    · simp [goTestCmdArgs, hraw, hlen, hjson, envPathSuffix, hp]
    · simp only [ne_eq, not_not] at hp
      simp [goTestCmdArgs, hraw, hlen, hjson, envPathSuffix, hp]
  refine ⟨hmain, ?_⟩
  rw [hmain, hasJSONArg_append, hasJSONArg_append, hjson]
  simp

/-- Witness for `goTestCmdArgs_jsonArgs_amended` with `TEST_DIRECTORY` set. -/
theorem goTestCmdArgs_jsonArgs_amended_witness :
    jsonOpts.rawCommand = false ∧ jsonOpts.args ≠ [] ∧ hasJSONArg jsonOpts.args = true ∧
    (goTestCmdArgs (some "./dir") jsonOpts =
        ["go", "test"] ++ jsonOpts.args ++ envPathSuffix (some "./dir") ∧
      hasJSONArg (goTestCmdArgs (some "./dir") jsonOpts) = true) :=
  ⟨rfl, by decide, rfl,
    goTestCmdArgs_jsonArgs_amended (some "./dir") jsonOpts rfl (by decide) rfl⟩

/-- A `World` whose process spawn fails (for example, a nonexistent
executable). -/
def spawnFailWorld : World := { allOkWorld with start := .error "exec: notfound" }

/-- Claim C4 fails on the code (code bug): when the process spawn fails,
`run` returns its error before `defer goTestProc.cancel()` is registered, so
the cancellation handle is never invoked on that exit path; on the
handler-setup, scan, summary-write, report-write, child-exit and success
paths the deferred cancel does run. -/
theorem run_spawn_failure_no_cancel :
    ((run spawnFailWorld none (optsSuppressing [])).1 ≠ none ∧
      (run spawnFailWorld none (optsSuppressing [])).2 = false) ∧
    (run allOkWorld none (optsSuppressing [])).2 = true ∧
    (run { allOkWorld with newHandler := .error "handler" } none (optsSuppressing [])).2 = true ∧
    (run { allOkWorld with scan := .error "decode" } none (optsSuppressing [])).2 = true ∧
    (run { allOkWorld with printSummary := .error "summary" } none (optsSuppressing [])).2 = true ∧
    (run { allOkWorld with writeJUnit := .error "junit" } none (optsSuppressing [])).2 = true ∧
    (run { allOkWorld with wait := .error "exit status 2" } none (optsSuppressing [])).2 = true := by
  decide

/-- Claim C2 fails on the code (code bug): reordering the suppress list keeps
the effective flag set (both orders of failed/skipped give 4, the
Errors-only set), but duplicating an entry changes it: the list with
`"failed"` duplicated gives 2, a set that still contains Failed and has
dropped Errors, because the Go code subtracts the flag integer arithmetically
a second time instead of removing an already-absent member idempotently. -/
theorem summarizer_duplicate_divergence :
    summarizer (optsSuppressing ["failed", "skipped"]) = 4 ∧
    summarizer (optsSuppressing ["skipped", "failed"]) = 4 ∧
    summarizer (optsSuppressing ["failed", "skipped", "failed"]) = 2 ∧
    summarizer (optsSuppressing ["failed", "skipped", "failed"]) ≠
      summarizer (optsSuppressing ["failed", "skipped"]) ∧
    sectionEnabled (summarizer (optsSuppressing ["failed", "skipped", "failed"]))
      SummarizeFailed = true ∧
    sectionEnabled (summarizer (optsSuppressing ["failed", "skipped"]))
      SummarizeErrors = true ∧
    sectionEnabled (summarizer (optsSuppressing ["failed", "skipped", "failed"]))
      SummarizeErrors = false := by
  decide

/-- Claim C3 fails on the code (code bug): suppressing `"errors"` twice
drives the flag integer to `-1`, which in two's complement has bits set far
outside the base set (bit 3 and above), so the effective flag set is not a
subset of "all sections enabled"; in particular the Errors section the user
suppressed is enabled again. -/
theorem summarizer_exceeds_base_divergence :
    summarizer (optsSuppressing ["errors", "errors"]) = -1 ∧
    flagBit (summarizer (optsSuppressing ["errors", "errors"])) 3 = true ∧
    flagBit SummarizeAll 3 = false ∧
    sectionEnabled (summarizer (optsSuppressing ["errors", "errors"]))
      SummarizeErrors = true := by
  decide

/-- Claim C9 is false on the code: in the suppress list
`["failed", "failed"]` both entries name the recognized section `"failed"`,
yet after processing the list the Failed section is still in the effective
set (the value is 3, Failed's bit set): the second entry, applied to the
value 5 in which Failed is already absent, does not remove Failed but
corrupts the set by arithmetic subtraction. -/
theorem summaryStep_remove_counterexample :
    summaryStep SummarizeAll "failed" = 5 ∧
    sectionEnabled 5 SummarizeFailed = false ∧
    summaryStep 5 "failed" = 3 ∧
    summarizer (optsSuppressing ["failed", "failed"]) = 3 ∧
    sectionEnabled (summarizer (optsSuppressing ["failed", "failed"]))
      SummarizeFailed = true := by
  decide

/-- The loop of `summarizer` subtracts, from any starting value, the Failed,
Skipped and Errors flags once per occurrence of the corresponding name in the
suppress list. -/
lemma foldl_summaryStep_count (l : List String) (s : Int) :
    l.foldl summaryStep s =
      s - SummarizeFailed * (l.count "failed" : Int)
        - SummarizeSkipped * (l.count "skipped" : Int)
        - SummarizeErrors * (l.count "errors" : Int) := by
  induction l generalizing s with
  | nil => simp
  | cons a rest ih =>
    rw [List.foldl_cons, ih]
    by_cases hf : a = "failed"
    · subst hf
      simp [summaryStep, List.count_cons]
      ring
    · by_cases hs : a = "skipped"
      · subst hs
        simp [summaryStep, List.count_cons]
        ring
      · by_cases he : a = "errors"
        · subst he
          simp [summaryStep, List.count_cons]
          ring
        · simp [summaryStep, hf, hs, he, List.count_cons, Ne.symm hf, Ne.symm hs, Ne.symm he]

/-- The flag-bit facts for any summary value reachable from a duplicate-free
suppress list: with each section's flag subtracted at most once, a section is
disabled exactly when its flag was subtracted. -/
lemma sectionEnabled_sub_flags (cf cs ce : Nat) (hf : cf ≤ 1) (hs : cs ≤ 1) (he : ce ≤ 1) :
    (sectionEnabled (SummarizeAll - SummarizeFailed * (cf : Int)
        - SummarizeSkipped * (cs : Int) - SummarizeErrors * (ce : Int))
      SummarizeFailed = false ↔ 0 < cf) ∧
    (sectionEnabled (SummarizeAll - SummarizeFailed * (cf : Int)
        - SummarizeSkipped * (cs : Int) - SummarizeErrors * (ce : Int))
      SummarizeSkipped = false ↔ 0 < cs) ∧
    (sectionEnabled (SummarizeAll - SummarizeFailed * (cf : Int)
        - SummarizeSkipped * (cs : Int) - SummarizeErrors * (ce : Int))
      SummarizeErrors = false ↔ 0 < ce) := by
  interval_cases cf <;> interval_cases cs <;> interval_cases ce <;> decide

/-- Claim C9 as amended: over a duplicate-free suppress list, a section among
Failed, Skipped and Errors is removed from the effective set exactly when its
name occurs in the list, and an entry with any unrecognized name leaves the
value unchanged (and no error is produced: the computation is total). -/
theorem summarizer_nodup_semantics (opts : Options) (h : opts.noSummary.Nodup) :
    (sectionEnabled (summarizer opts) SummarizeFailed = false ↔
      "failed" ∈ opts.noSummary) ∧
    (sectionEnabled (summarizer opts) SummarizeSkipped = false ↔
      "skipped" ∈ opts.noSummary) ∧
    (sectionEnabled (summarizer opts) SummarizeErrors = false ↔
      "errors" ∈ opts.noSummary) ∧
    (∀ (s : Int) (item : String), item ≠ "failed" → item ≠ "skipped" →
      item ≠ "errors" → summaryStep s item = s) := by
  have hsum := foldl_summaryStep_count opts.noSummary SummarizeAll
  have hle := List.nodup_iff_count_le_one.mp h
  have hf := hle "failed"
  have hs := hle "skipped"
  have he := hle "errors"
  have hfm : "failed" ∈ opts.noSummary ↔ 0 < opts.noSummary.count "failed" :=
    List.count_pos_iff.symm
  have hsm : "skipped" ∈ opts.noSummary ↔ 0 < opts.noSummary.count "skipped" :=
    List.count_pos_iff.symm
  have hem : "errors" ∈ opts.noSummary ↔ 0 < opts.noSummary.count "errors" :=
    List.count_pos_iff.symm
  have hv : summarizer opts =
      SummarizeAll - SummarizeFailed * (opts.noSummary.count "failed" : Int)
        - SummarizeSkipped * (opts.noSummary.count "skipped" : Int)
        - SummarizeErrors * (opts.noSummary.count "errors" : Int) := hsum
  have key := sectionEnabled_sub_flags _ _ _ hf hs he
  refine ⟨?_, ?_, ?_, ?_⟩
  · rw [hv, hfm]; exact key.1
  · rw [hv, hsm]; exact key.2.1
  · rw [hv, hem]; exact key.2.2
  · intro s item h1 h2 h3
    simp [summaryStep, h1, h2, h3]

/-- Witness for `summarizer_nodup_semantics` on the duplicate-free list
`["failed", "bogus"]`: Failed is removed, Errors stays, and the unrecognized
entry is a no-op. -/
theorem summarizer_nodup_semantics_witness :
    (["failed", "bogus"] : List String).Nodup ∧
    sectionEnabled (summarizer (optsSuppressing ["failed", "bogus"]))
      SummarizeFailed = false ∧
    sectionEnabled (summarizer (optsSuppressing ["failed", "bogus"]))
      SummarizeErrors = true := by
  have h := summarizer_nodup_semantics (optsSuppressing ["failed", "bogus"]) (by decide)
  refine ⟨by decide, h.1.mpr (by decide), ?_⟩
  cases hb : sectionEnabled (summarizer (optsSuppressing ["failed", "bogus"])) SummarizeErrors
  · exact absurd (h.2.2.1.mp hb) (by decide)
  · rfl

